import Mathlib

/-!
# CANNetworkConfiguration: the stack settings store

A shallow embedding of `src/isobus/src/can_network_configuration.cpp`.

The class holds four scalar data members, each with one setter and one getter.
The object is embedded as a record, every setter as a function from the record
before the call to the record after it, and every getter (a `const` member
function whose body is a single `return`) as a function from the record to the
value returned.

Machine integers are natural numbers.  No accessor performs arithmetic, so no
wrap-around occurs inside the code; the parameter types `std::uint32_t` and
`std::uint8_t` appear as the range hypotheses `value < UINT32_SIZE` and
`numberFrames < UINT8_SIZE` on the values a caller can pass.
-/

namespace isobus

/-- Number of values of `std::uint32_t`. -/
def UINT32_SIZE : Nat := 4294967296

/-- Number of values of `std::uint8_t`. -/
def UINT8_SIZE : Nat := 256

/-- The data members assigned and returned by the accessors of
`CANNetworkConfiguration`. -/
structure CANNetworkConfiguration where
  /-- A `std::uint32_t` member. -/
  maxNumberTransportProtocolSessions : Nat
  /-- A `std::uint32_t` member. -/
  minimumTimeBetweenTransportProtocolBAMFrames : Nat
  /-- A `std::uint8_t` member. -/
  extendedTransportProtocolMaxNumberOfFramesPerEDPO : Nat
  /-- A `std::uint8_t` member. -/
  networkManagerMaxFramesToSendPerUpdate : Nat
  deriving DecidableEq, Repr

namespace CANNetworkConfiguration

/-- Source line 26: `constexpr std::uint32_t MAX_BAM_FRAME_DELAY_MS = 200;`. -/
def MAX_BAM_FRAME_DELAY_MS : Nat := 200

/-- Source line 27: `constexpr std::uint32_t MIN_BAM_FRAME_DELAY_MS = 10;`. -/
def MIN_BAM_FRAME_DELAY_MS : Nat := 10

/-- Source lines 14-17: unconditional assignment. -/
def set_max_number_transport_protocol_sessions
    (s : CANNetworkConfiguration) (value : Nat) : CANNetworkConfiguration :=
  { s with maxNumberTransportProtocolSessions := value }

/-- Source lines 19-22. -/
def get_max_number_transport_protocol_sessions (s : CANNetworkConfiguration) : Nat :=
  s.maxNumberTransportProtocolSessions

/-- Source lines 24-34: the assignment happens only when
`(value <= MAX_BAM_FRAME_DELAY_MS) && (value >= MIN_BAM_FRAME_DELAY_MS)`; there
is no else branch, so the object is otherwise left as it was. -/
def set_minimum_time_between_transport_protocol_bam_frames
    (s : CANNetworkConfiguration) (value : Nat) : CANNetworkConfiguration :=
  if (decide (value ≤ MAX_BAM_FRAME_DELAY_MS)) && (decide (value ≥ MIN_BAM_FRAME_DELAY_MS)) then
    { s with minimumTimeBetweenTransportProtocolBAMFrames := value }
  else
    s

/-- Source lines 36-39. -/
def get_minimum_time_between_transport_protocol_bam_frames
    (s : CANNetworkConfiguration) : Nat :=
  s.minimumTimeBetweenTransportProtocolBAMFrames

/-- Source lines 41-44: unconditional assignment. -/
def set_max_number_of_etp_frames_per_edpo
    (s : CANNetworkConfiguration) (numberFrames : Nat) : CANNetworkConfiguration :=
  { s with extendedTransportProtocolMaxNumberOfFramesPerEDPO := numberFrames }

/-- Source lines 46-49. -/
def get_max_number_of_etp_frames_per_edpo (s : CANNetworkConfiguration) : Nat :=
  s.extendedTransportProtocolMaxNumberOfFramesPerEDPO

/-- Source lines 51-54: unconditional assignment. -/
def set_max_number_of_network_manager_protocol_frames_per_update
    (s : CANNetworkConfiguration) (numberFrames : Nat) : CANNetworkConfiguration :=
  { s with networkManagerMaxFramesToSendPerUpdate := numberFrames }

/-- Source lines 56-59. -/
def get_max_number_of_network_manager_protocol_frames_per_update
    (s : CANNetworkConfiguration) : Nat :=
  s.networkManagerMaxFramesToSendPerUpdate

/-- The range the BAM frame delay is meant to stay in:
`MIN_BAM_FRAME_DELAY_MS <= minimumTimeBetweenTransportProtocolBAMFrames <= MAX_BAM_FRAME_DELAY_MS`. -/
def BamInRange (s : CANNetworkConfiguration) : Prop :=
  MIN_BAM_FRAME_DELAY_MS ≤ s.minimumTimeBetweenTransportProtocolBAMFrames ∧
  s.minimumTimeBetweenTransportProtocolBAMFrames ≤ MAX_BAM_FRAME_DELAY_MS

instance (s : CANNetworkConfiguration) : Decidable (BamInRange s) := by
  unfold BamInRange; infer_instance

/-- A call of one of the four setters together with its argument. -/
inductive SetterCall where
  | sessions (value : Nat)
  | bamFrames (value : Nat)
  | etpFrames (numberFrames : Nat)
  | nmFrames (numberFrames : Nat)
  deriving DecidableEq, Repr

/-- The object after the given setter call. -/
def SetterCall.apply (s : CANNetworkConfiguration) : SetterCall → CANNetworkConfiguration
  | .sessions value => s.set_max_number_transport_protocol_sessions value
  | .bamFrames value => s.set_minimum_time_between_transport_protocol_bam_frames value
  | .etpFrames numberFrames => s.set_max_number_of_etp_frames_per_edpo numberFrames
  | .nmFrames numberFrames =>
      s.set_max_number_of_network_manager_protocol_frames_per_update numberFrames

/-- The object after a finite sequence of setter calls, made in list order. -/
def runSetters (s : CANNetworkConfiguration) : List SetterCall → CANNetworkConfiguration
  | [] => s
  | c :: cs => runSetters (SetterCall.apply s c) cs

/-- A call of one of the four getters. -/
inductive GetterCall where
  | sessions
  | bamFrames
  | etpFrames
  | nmFrames
  deriving DecidableEq, Repr

/-- The value returned by the given getter call. -/
def GetterCall.read (s : CANNetworkConfiguration) : GetterCall → Nat
  | .sessions => s.get_max_number_transport_protocol_sessions
  | .bamFrames => s.get_minimum_time_between_transport_protocol_bam_frames
  | .etpFrames => s.get_max_number_of_etp_frames_per_edpo
  | .nmFrames => s.get_max_number_of_network_manager_protocol_frames_per_update

/-- A getter call in state-passing form: the value returned and the object
after the call.  The getters are `const` member functions whose bodies contain
no assignment, so the object after the call is the object before it. -/
def GetterCall.exec (s : CANNetworkConfiguration) (g : GetterCall) :
    Nat × CANNetworkConfiguration :=
  (GetterCall.read s g, s)

/-- A finite sequence of getter calls in state-passing form: the values
returned, in call order, and the object after the last call. -/
def runGetters (s : CANNetworkConfiguration) :
    List GetterCall → List Nat × CANNetworkConfiguration
  | [] => ([], s)
  | g :: gs =>
      let r := GetterCall.exec s g
      let rest := runGetters r.2 gs
      (r.1 :: rest.1, rest.2)

/-- The object after calling
`set_minimum_time_between_transport_protocol_bam_frames` once for every element
of the list, in list order. -/
def runBamSetters (s : CANNetworkConfiguration) : List Nat → CANNetworkConfiguration
  | [] => s
  | value :: rest =>
      runBamSetters (s.set_minimum_time_between_transport_protocol_bam_frames value) rest

/-- Stated from the claim, not from the code: the last element of the list that
lies in [10, 200], if there is one. -/
def lastInRange (vs : List Nat) : Option Nat :=
  (vs.filter (fun v => decide (10 ≤ v ∧ v ≤ 200))).getLast?

/-- The four data members, as names. -/
inductive Field where
  | maxNumberTransportProtocolSessions
  | minimumTimeBetweenTransportProtocolBAMFrames
  | extendedTransportProtocolMaxNumberOfFramesPerEDPO
  | networkManagerMaxFramesToSendPerUpdate
  deriving DecidableEq, Repr

/-- The data member that the called setter assigns to (source lines 16, 32, 43
and 53). -/
def SetterCall.field : SetterCall → Field
  | .sessions _ => .maxNumberTransportProtocolSessions
  | .bamFrames _ => .minimumTimeBetweenTransportProtocolBAMFrames
  | .etpFrames _ => .extendedTransportProtocolMaxNumberOfFramesPerEDPO
  | .nmFrames _ => .networkManagerMaxFramesToSendPerUpdate

end CANNetworkConfiguration

/-! ## Helper lemmas -/

namespace CANNetworkConfiguration

theorem bam_setter_accepts (s : CANNetworkConfiguration) (value : Nat)
    (hlo : 10 ≤ value) (hhi : value ≤ 200) :
    s.set_minimum_time_between_transport_protocol_bam_frames value =
      { s with minimumTimeBetweenTransportProtocolBAMFrames := value } := by
  simp [set_minimum_time_between_transport_protocol_bam_frames, MAX_BAM_FRAME_DELAY_MS,
    MIN_BAM_FRAME_DELAY_MS, hlo, hhi]

theorem bam_setter_rejects (s : CANNetworkConfiguration) (value : Nat)
    (h : value < 10 ∨ 200 < value) :
    s.set_minimum_time_between_transport_protocol_bam_frames value = s := by
  unfold set_minimum_time_between_transport_protocol_bam_frames MAX_BAM_FRAME_DELAY_MS
    MIN_BAM_FRAME_DELAY_MS
  split
  · rename_i hc
    simp only [Bool.and_eq_true, decide_eq_true_eq] at hc
    omega
  · rfl

theorem bam_setter_preserves_range (s : CANNetworkConfiguration) (value : Nat)
    (h : BamInRange s) :
    BamInRange (s.set_minimum_time_between_transport_protocol_bam_frames value) := by
  unfold set_minimum_time_between_transport_protocol_bam_frames
  split
  · rename_i hc
    simp only [Bool.and_eq_true, decide_eq_true_eq] at hc
    exact ⟨hc.2, hc.1⟩
  · exact h

theorem setter_call_preserves_range (s : CANNetworkConfiguration) (c : SetterCall)
    (h : BamInRange s) : BamInRange (SetterCall.apply s c) := by
  cases c with
  | sessions value => exact h
  | bamFrames value => exact bam_setter_preserves_range s value h
  | etpFrames numberFrames => exact h
  | nmFrames numberFrames => exact h

theorem runSetters_preserves_range (cs : List SetterCall) :
    ∀ s : CANNetworkConfiguration, BamInRange s → BamInRange (runSetters s cs) := by
  induction cs with
  | nil => intro s h; exact h
  | cons c cs ih =>
    intro s h
    exact ih (SetterCall.apply s c) (setter_call_preserves_range s c h)

theorem runGetters_eq (gs : List GetterCall) (s : CANNetworkConfiguration) :
    runGetters s gs = (gs.map (GetterCall.read s), s) := by
  induction gs with
  | nil => rfl
  | cons g gs ih => simp [runGetters, GetterCall.exec, ih]

theorem bam_readback_iff (s : CANNetworkConfiguration) (value : Nat) :
    (s.set_minimum_time_between_transport_protocol_bam_frames value).get_minimum_time_between_transport_protocol_bam_frames
        = value ↔
      (10 ≤ value ∧ value ≤ 200) ∨
        value = s.get_minimum_time_between_transport_protocol_bam_frames := by
  by_cases hin : 10 ≤ value ∧ value ≤ 200
  · rw [bam_setter_accepts s value hin.1 hin.2]
    exact ⟨fun _ => Or.inl hin, fun _ => rfl⟩
  · rw [bam_setter_rejects s value (by omega)]
    constructor
    · intro h; exact Or.inr h.symm
    · intro h
      rcases h with h | h
      · exact absurd h hin
      · exact h.symm

theorem runBamSetters_append (pre post : List Nat) :
    ∀ s : CANNetworkConfiguration,
      runBamSetters s (pre ++ post) = runBamSetters (runBamSetters s pre) post := by
  induction pre with
  | nil => intro s; rfl
  | cons v pre ih =>
    intro s
    exact ih (s.set_minimum_time_between_transport_protocol_bam_frames v)

theorem runBamSetters_all_rejected (vs : List Nat) (s : CANNetworkConfiguration)
    (h : ∀ w ∈ vs, w < 10 ∨ 200 < w) : runBamSetters s vs = s := by
  induction vs with
  | nil => rfl
  | cons v vs ih =>
    have hv : v < 10 ∨ 200 < v := h v (List.mem_cons_self v vs)
    have hrest : ∀ w ∈ vs, w < 10 ∨ 200 < w := fun w hw => h w (List.mem_cons_of_mem v hw)
    show runBamSetters (s.set_minimum_time_between_transport_protocol_bam_frames v) vs = s
    rw [bam_setter_rejects s v hv]
    exact ih hrest

theorem runBamSetters_lastInRange (vs : List Nat) :
    ∀ s : CANNetworkConfiguration,
      (runBamSetters s vs).get_minimum_time_between_transport_protocol_bam_frames
        = (lastInRange vs).getD s.get_minimum_time_between_transport_protocol_bam_frames := by
  induction vs with
  | nil => intro s; rfl
  | cons v vs ih =>
    intro s
    show (runBamSetters (s.set_minimum_time_between_transport_protocol_bam_frames v)
      vs).get_minimum_time_between_transport_protocol_bam_frames = _
    rw [ih]
    by_cases hin : 10 ≤ v ∧ v ≤ 200
    · rw [bam_setter_accepts s v hin.1 hin.2]
      simp [lastInRange, List.filter_cons, hin, List.getLast?_cons,
        get_minimum_time_between_transport_protocol_bam_frames]
    · rw [bam_setter_rejects s v (by omega)]
      simp [lastInRange, List.filter_cons, hin]

theorem setter_calls_commute (s : CANNetworkConfiguration) (c d : SetterCall)
    (h : c.field ≠ d.field) :
    SetterCall.apply (SetterCall.apply s c) d = SetterCall.apply (SetterCall.apply s d) c := by
  cases c <;> cases d <;> first
    | exact absurd rfl h
    | rfl
    | (simp only [SetterCall.apply, set_minimum_time_between_transport_protocol_bam_frames]
       split <;> rfl)

end CANNetworkConfiguration

/-! ## Claims -/

namespace CANNetworkConfiguration

/-- C1: for every store state and every 32-bit value with 10 <= value <= 200,
after `set_minimum_time_between_transport_protocol_bam_frames value` the getter
`get_minimum_time_between_transport_protocol_bam_frames` returns exactly
`value`. -/
theorem C1_bam_in_range_write_reads_back (s : CANNetworkConfiguration) (value : Nat)
    (_hty : value < UINT32_SIZE) (hlo : 10 ≤ value) (hhi : value ≤ 200) :
    (s.set_minimum_time_between_transport_protocol_bam_frames value).get_minimum_time_between_transport_protocol_bam_frames
      = value := by
  rw [bam_setter_accepts s value hlo hhi]
  rfl

theorem C1_bam_in_range_write_reads_back_witness :
    (137 < UINT32_SIZE ∧ 10 ≤ 137 ∧ 137 ≤ 200) ∧
    (set_minimum_time_between_transport_protocol_bam_frames ⟨4, 50, 255, 255⟩ 137).get_minimum_time_between_transport_protocol_bam_frames
      = 137 :=
  ⟨by decide, C1_bam_in_range_write_reads_back ⟨4, 50, 255, 255⟩ 137 (by decide) (by decide)
    (by decide)⟩

/-- C2: for every store state and every 32-bit value with value < 10 or
value > 200, `set_minimum_time_between_transport_protocol_bam_frames value` is
a no-op: the whole state after the call equals the state before it, and in
particular the BAM-interval getter returns what it returned before the call. -/
theorem C2_bam_out_of_range_write_is_noop (s : CANNetworkConfiguration) (value : Nat)
    (_hty : value < UINT32_SIZE) (h : value < 10 ∨ 200 < value) :
    s.set_minimum_time_between_transport_protocol_bam_frames value = s ∧
    (s.set_minimum_time_between_transport_protocol_bam_frames value).get_minimum_time_between_transport_protocol_bam_frames
      = s.get_minimum_time_between_transport_protocol_bam_frames := by
  rw [bam_setter_rejects s value h]
  exact ⟨rfl, rfl⟩

theorem C2_bam_out_of_range_write_is_noop_witness :
    (4000000000 < UINT32_SIZE ∧ (4000000000 < 10 ∨ 200 < 4000000000)) ∧
    (set_minimum_time_between_transport_protocol_bam_frames ⟨4, 50, 255, 255⟩ 4000000000
        = ⟨4, 50, 255, 255⟩ ∧
      (set_minimum_time_between_transport_protocol_bam_frames ⟨4, 50, 255, 255⟩
          4000000000).get_minimum_time_between_transport_protocol_bam_frames
        = get_minimum_time_between_transport_protocol_bam_frames ⟨4, 50, 255, 255⟩) :=
  ⟨by decide, C2_bam_out_of_range_write_is_noop ⟨4, 50, 255, 255⟩ 4000000000 (by decide)
    (by decide)⟩

/-- C3: the predicate 10 <= minimumTimeBetweenTransportProtocolBAMFrames <= 200
is an invariant of the store.  If it holds in a state, it holds after any one
of the four setters applied with any argument (out-of-range BAM arguments
included) and after any finite sequence of setter calls, so the BAM-interval
getter returns a value in [10, 200] in every state reached that way. -/
theorem C3_bam_range_is_invariant (s : CANNetworkConfiguration) (h : BamInRange s)
    (c : SetterCall) (cs : List SetterCall) :
    BamInRange (SetterCall.apply s c) ∧
    BamInRange (runSetters s cs) ∧
    10 ≤ (runSetters s cs).get_minimum_time_between_transport_protocol_bam_frames ∧
    (runSetters s cs).get_minimum_time_between_transport_protocol_bam_frames ≤ 200 :=
  ⟨setter_call_preserves_range s c h, runSetters_preserves_range cs s h,
    (runSetters_preserves_range cs s h).1, (runSetters_preserves_range cs s h).2⟩

theorem C3_bam_range_is_invariant_witness :
    BamInRange ⟨4, 50, 255, 255⟩ ∧
    (BamInRange (SetterCall.apply ⟨4, 50, 255, 255⟩ (.bamFrames 9)) ∧
      BamInRange (runSetters ⟨4, 50, 255, 255⟩
        [.bamFrames 300, .sessions 7, .bamFrames 10, .etpFrames 16, .bamFrames 0]) ∧
      10 ≤ (runSetters ⟨4, 50, 255, 255⟩
        [.bamFrames 300, .sessions 7, .bamFrames 10, .etpFrames 16,
          .bamFrames 0]).get_minimum_time_between_transport_protocol_bam_frames ∧
      (runSetters ⟨4, 50, 255, 255⟩
        [.bamFrames 300, .sessions 7, .bamFrames 10, .etpFrames 16,
          .bamFrames 0]).get_minimum_time_between_transport_protocol_bam_frames ≤ 200) :=
  ⟨by decide, C3_bam_range_is_invariant ⟨4, 50, 255, 255⟩ (by decide) (.bamFrames 9)
    [.bamFrames 300, .sessions 7, .bamFrames 10, .etpFrames 16, .bamFrames 0]⟩

/-- C4: each of the three unconstrained setters accepts every representable
value of its parameter type.  For every state, after
`set_max_number_transport_protocol_sessions value` with any uint32 value the
matching getter returns exactly that value, and the same holds for
`set_max_number_of_etp_frames_per_edpo` and
`set_max_number_of_network_manager_protocol_frames_per_update` with any uint8
value. -/
theorem C4_unconstrained_setters_read_back (s : CANNetworkConfiguration)
    (value : Nat) (_hvalue : value < UINT32_SIZE)
    (etpFrames : Nat) (_hetp : etpFrames < UINT8_SIZE)
    (nmFrames : Nat) (_hnm : nmFrames < UINT8_SIZE) :
    (s.set_max_number_transport_protocol_sessions value).get_max_number_transport_protocol_sessions
      = value ∧
    (s.set_max_number_of_etp_frames_per_edpo etpFrames).get_max_number_of_etp_frames_per_edpo
      = etpFrames ∧
    (s.set_max_number_of_network_manager_protocol_frames_per_update nmFrames).get_max_number_of_network_manager_protocol_frames_per_update
      = nmFrames :=
  ⟨rfl, rfl, rfl⟩

theorem C4_unconstrained_setters_read_back_witness :
    (4294967295 < UINT32_SIZE ∧ 0 < UINT8_SIZE ∧ 255 < UINT8_SIZE) ∧
    ((set_max_number_transport_protocol_sessions ⟨4, 50, 16, 255⟩
        4294967295).get_max_number_transport_protocol_sessions = 4294967295 ∧
      (set_max_number_of_etp_frames_per_edpo ⟨4, 50, 16, 255⟩
        0).get_max_number_of_etp_frames_per_edpo = 0 ∧
      (set_max_number_of_network_manager_protocol_frames_per_update ⟨4, 50, 16, 7⟩
        255).get_max_number_of_network_manager_protocol_frames_per_update = 255) :=
  ⟨by decide,
    (C4_unconstrained_setters_read_back ⟨4, 50, 16, 255⟩ 4294967295 (by decide) 0 (by decide)
      255 (by decide)).1,
    (C4_unconstrained_setters_read_back ⟨4, 50, 16, 255⟩ 4294967295 (by decide) 0 (by decide)
      255 (by decide)).2.1,
    (C4_unconstrained_setters_read_back ⟨4, 50, 16, 7⟩ 4294967295 (by decide) 0 (by decide)
      255 (by decide)).2.2⟩

/-- C5: independence of fields.  For every state, every setter and every
argument (accepted or rejected by the BAM setter, and whatever its size), the
three getters that belong to the other fields return after the call exactly
what they returned before it. -/
theorem C5_setters_leave_other_fields (s : CANNetworkConfiguration) (value : Nat) :
    ((s.set_max_number_transport_protocol_sessions value).get_minimum_time_between_transport_protocol_bam_frames
        = s.get_minimum_time_between_transport_protocol_bam_frames ∧
      (s.set_max_number_transport_protocol_sessions value).get_max_number_of_etp_frames_per_edpo
        = s.get_max_number_of_etp_frames_per_edpo ∧
      (s.set_max_number_transport_protocol_sessions value).get_max_number_of_network_manager_protocol_frames_per_update
        = s.get_max_number_of_network_manager_protocol_frames_per_update) ∧
    ((s.set_minimum_time_between_transport_protocol_bam_frames value).get_max_number_transport_protocol_sessions
        = s.get_max_number_transport_protocol_sessions ∧
      (s.set_minimum_time_between_transport_protocol_bam_frames value).get_max_number_of_etp_frames_per_edpo
        = s.get_max_number_of_etp_frames_per_edpo ∧
      (s.set_minimum_time_between_transport_protocol_bam_frames value).get_max_number_of_network_manager_protocol_frames_per_update
        = s.get_max_number_of_network_manager_protocol_frames_per_update) ∧
    ((s.set_max_number_of_etp_frames_per_edpo value).get_max_number_transport_protocol_sessions
        = s.get_max_number_transport_protocol_sessions ∧
      (s.set_max_number_of_etp_frames_per_edpo value).get_minimum_time_between_transport_protocol_bam_frames
        = s.get_minimum_time_between_transport_protocol_bam_frames ∧
      (s.set_max_number_of_etp_frames_per_edpo value).get_max_number_of_network_manager_protocol_frames_per_update
        = s.get_max_number_of_network_manager_protocol_frames_per_update) ∧
    ((s.set_max_number_of_network_manager_protocol_frames_per_update value).get_max_number_transport_protocol_sessions
        = s.get_max_number_transport_protocol_sessions ∧
      (s.set_max_number_of_network_manager_protocol_frames_per_update value).get_minimum_time_between_transport_protocol_bam_frames
        = s.get_minimum_time_between_transport_protocol_bam_frames ∧
      (s.set_max_number_of_network_manager_protocol_frames_per_update value).get_max_number_of_etp_frames_per_edpo
        = s.get_max_number_of_etp_frames_per_edpo) := by
  refine ⟨⟨rfl, rfl, rfl⟩, ?_, ⟨rfl, rfl, rfl⟩, ⟨rfl, rfl, rfl⟩⟩
  unfold set_minimum_time_between_transport_protocol_bam_frames
  split
  · exact ⟨rfl, rfl, rfl⟩
  · exact ⟨rfl, rfl, rfl⟩

/-- C6: the BAM-interval setter is inclusive at both ends.  From any state,
`set(9)` leaves the getter at its prior value, `set(10)` makes it return 10,
`set(200)` makes it return 200, and `set(201)` leaves it at its prior value. -/
theorem C6_bam_boundaries (s : CANNetworkConfiguration) :
    (s.set_minimum_time_between_transport_protocol_bam_frames 9).get_minimum_time_between_transport_protocol_bam_frames
      = s.get_minimum_time_between_transport_protocol_bam_frames ∧
    (s.set_minimum_time_between_transport_protocol_bam_frames 10).get_minimum_time_between_transport_protocol_bam_frames
      = 10 ∧
    (s.set_minimum_time_between_transport_protocol_bam_frames 200).get_minimum_time_between_transport_protocol_bam_frames
      = 200 ∧
    (s.set_minimum_time_between_transport_protocol_bam_frames 201).get_minimum_time_between_transport_protocol_bam_frames
      = s.get_minimum_time_between_transport_protocol_bam_frames :=
  ⟨rfl, rfl, rfl, rfl⟩

/-- C7: idempotence.  For every setter, every state and every valid value (any
value of the parameter type for the three unconstrained setters, any value in
[10, 200] for the BAM setter), applying the setter twice with that value gives
the same state as applying it once, and the matching getter returns the value
after the first call and after the second call. -/
theorem C7_setters_idempotent (s : CANNetworkConfiguration)
    (value : Nat) (_hvalue : value < UINT32_SIZE)
    (bam : Nat) (_hbam : bam < UINT32_SIZE) (hlo : 10 ≤ bam) (hhi : bam ≤ 200)
    (etpFrames : Nat) (_hetp : etpFrames < UINT8_SIZE)
    (nmFrames : Nat) (_hnm : nmFrames < UINT8_SIZE) :
    (((s.set_max_number_transport_protocol_sessions value).set_max_number_transport_protocol_sessions value
        = s.set_max_number_transport_protocol_sessions value) ∧
      (s.set_max_number_transport_protocol_sessions value).get_max_number_transport_protocol_sessions
        = value ∧
      ((s.set_max_number_transport_protocol_sessions value).set_max_number_transport_protocol_sessions value).get_max_number_transport_protocol_sessions
        = value) ∧
    (((s.set_minimum_time_between_transport_protocol_bam_frames bam).set_minimum_time_between_transport_protocol_bam_frames bam
        = s.set_minimum_time_between_transport_protocol_bam_frames bam) ∧
      (s.set_minimum_time_between_transport_protocol_bam_frames bam).get_minimum_time_between_transport_protocol_bam_frames
        = bam ∧
      ((s.set_minimum_time_between_transport_protocol_bam_frames bam).set_minimum_time_between_transport_protocol_bam_frames bam).get_minimum_time_between_transport_protocol_bam_frames
        = bam) ∧
    (((s.set_max_number_of_etp_frames_per_edpo etpFrames).set_max_number_of_etp_frames_per_edpo etpFrames
        = s.set_max_number_of_etp_frames_per_edpo etpFrames) ∧
      (s.set_max_number_of_etp_frames_per_edpo etpFrames).get_max_number_of_etp_frames_per_edpo
        = etpFrames ∧
      ((s.set_max_number_of_etp_frames_per_edpo etpFrames).set_max_number_of_etp_frames_per_edpo etpFrames).get_max_number_of_etp_frames_per_edpo
        = etpFrames) ∧
    (((s.set_max_number_of_network_manager_protocol_frames_per_update nmFrames).set_max_number_of_network_manager_protocol_frames_per_update nmFrames
        = s.set_max_number_of_network_manager_protocol_frames_per_update nmFrames) ∧
      (s.set_max_number_of_network_manager_protocol_frames_per_update nmFrames).get_max_number_of_network_manager_protocol_frames_per_update
        = nmFrames ∧
      ((s.set_max_number_of_network_manager_protocol_frames_per_update nmFrames).set_max_number_of_network_manager_protocol_frames_per_update nmFrames).get_max_number_of_network_manager_protocol_frames_per_update
        = nmFrames) := by
  refine ⟨⟨rfl, rfl, rfl⟩, ?_, ⟨rfl, rfl, rfl⟩, ⟨rfl, rfl, rfl⟩⟩
  rw [bam_setter_accepts s bam hlo hhi, bam_setter_accepts _ bam hlo hhi]
  exact ⟨rfl, rfl, rfl⟩

theorem C7_setters_idempotent_witness :
    (1000 < UINT32_SIZE ∧ 200 < UINT32_SIZE ∧ 10 ≤ 200 ∧ 200 ≤ 200 ∧ 16 < UINT8_SIZE ∧
      255 < UINT8_SIZE) ∧
    set_minimum_time_between_transport_protocol_bam_frames
        (set_minimum_time_between_transport_protocol_bam_frames ⟨4, 50, 255, 3⟩ 200) 200
      = set_minimum_time_between_transport_protocol_bam_frames ⟨4, 50, 255, 3⟩ 200 :=
  ⟨by decide,
    (C7_setters_idempotent ⟨4, 50, 255, 3⟩ 1000 (by decide) 200 (by decide) (by decide)
      (by decide) 16 (by decide) 255 (by decide)).2.1.1⟩

/-- C8: getters are pure reads.  Each of the four getters returns the current
value of its own field and leaves the whole store state unchanged, so any
number of getter calls made between two setter calls return the same results
as on the state before them, repeated calls of one getter return the same
value each time, and neither a later getter result nor the effect of the next
setter call is affected. -/
theorem C8_getters_are_pure_reads (s : CANNetworkConfiguration) (g : GetterCall)
    (gs : List GetterCall) (n : Nat) (c : SetterCall) :
    (s.get_max_number_transport_protocol_sessions = s.maxNumberTransportProtocolSessions ∧
      s.get_minimum_time_between_transport_protocol_bam_frames
        = s.minimumTimeBetweenTransportProtocolBAMFrames ∧
      s.get_max_number_of_etp_frames_per_edpo
        = s.extendedTransportProtocolMaxNumberOfFramesPerEDPO ∧
      s.get_max_number_of_network_manager_protocol_frames_per_update
        = s.networkManagerMaxFramesToSendPerUpdate) ∧
    (GetterCall.exec s g).2 = s ∧
    runGetters s gs = (gs.map (GetterCall.read s), s) ∧
    runGetters s (List.replicate n g) = (List.replicate n (GetterCall.read s g), s) ∧
    GetterCall.read (runGetters s gs).2 g = GetterCall.read s g ∧
    SetterCall.apply (runGetters s gs).2 c = SetterCall.apply s c := by
  refine ⟨⟨rfl, rfl, rfl, rfl⟩, rfl, runGetters_eq gs s, ?_, ?_, ?_⟩
  · rw [runGetters_eq, List.map_replicate]
  · rw [runGetters_eq]
  · rw [runGetters_eq]

/-- C10: read-back detects rejection exactly.  For every state whose BAM value
lies in [10, 200] and every 32-bit value, after
`set_minimum_time_between_transport_protocol_bam_frames value` the getter
returns `value` if and only if 10 <= value <= 200.  Without the precondition on
the state, the getter returns `value` if and only if `value` is in [10, 200] or
equals the prior value. -/
theorem C10_readback_detects_rejection (s : CANNetworkConfiguration) (value : Nat)
    (_hty : value < UINT32_SIZE) :
    (BamInRange s →
      ((s.set_minimum_time_between_transport_protocol_bam_frames value).get_minimum_time_between_transport_protocol_bam_frames
          = value ↔ (10 ≤ value ∧ value ≤ 200))) ∧
    ((s.set_minimum_time_between_transport_protocol_bam_frames value).get_minimum_time_between_transport_protocol_bam_frames
        = value ↔
      ((10 ≤ value ∧ value ≤ 200) ∨
        value = s.get_minimum_time_between_transport_protocol_bam_frames)) := by
  refine ⟨?_, bam_readback_iff s value⟩
  intro hs
  rw [bam_readback_iff]
  constructor
  · intro h
    rcases h with h | h
    · exact h
    · rw [h]; exact hs
  · intro h; exact Or.inl h

theorem C10_readback_detects_rejection_witness :
    (201 < UINT32_SIZE ∧ BamInRange ⟨4, 50, 255, 255⟩) ∧
    ((set_minimum_time_between_transport_protocol_bam_frames ⟨4, 50, 255, 255⟩
        201).get_minimum_time_between_transport_protocol_bam_frames = 201 ↔
      (10 ≤ 201 ∧ 201 ≤ 200)) :=
  ⟨by decide,
    (C10_readback_detects_rejection ⟨4, 50, 255, 255⟩ 201 (by decide)).1 (by decide)⟩

/-- C11: last valid write wins.  For every state with BAM value p and every
finite list of 32-bit values, after calling
`set_minimum_time_between_transport_protocol_bam_frames` on each element in
order, the getter returns the last element of the list that lies in [10, 200],
or p if no element lies in [10, 200].  Stated three ways: through
`lastInRange`; for every split of the list around an in-range element followed
only by out-of-range ones; and for a list with no in-range element. -/
theorem C11_last_valid_write_wins (s : CANNetworkConfiguration) (vs : List Nat)
    (_hty : ∀ v ∈ vs, v < UINT32_SIZE) :
    (runBamSetters s vs).get_minimum_time_between_transport_protocol_bam_frames
      = (lastInRange vs).getD s.get_minimum_time_between_transport_protocol_bam_frames ∧
    (∀ (pre : List Nat) (v : Nat) (post : List Nat), vs = pre ++ v :: post →
      10 ≤ v → v ≤ 200 → (∀ w ∈ post, w < 10 ∨ 200 < w) →
      (runBamSetters s vs).get_minimum_time_between_transport_protocol_bam_frames = v) ∧
    ((∀ w ∈ vs, w < 10 ∨ 200 < w) →
      (runBamSetters s vs).get_minimum_time_between_transport_protocol_bam_frames
        = s.get_minimum_time_between_transport_protocol_bam_frames) := by
  refine ⟨runBamSetters_lastInRange vs s, ?_, ?_⟩
  · intro pre v post hvs hlo hhi hpost
    subst hvs
    rw [runBamSetters_append]
    show (runBamSetters
      ((runBamSetters s pre).set_minimum_time_between_transport_protocol_bam_frames v)
      post).get_minimum_time_between_transport_protocol_bam_frames = v
    rw [runBamSetters_all_rejected post _ hpost, bam_setter_accepts _ v hlo hhi]
    rfl
  · intro hall
    rw [runBamSetters_all_rejected vs s hall]

theorem C11_last_valid_write_wins_witness :
    (∀ v ∈ [300, 10, 9, 137, 201, 0, 4294967295], v < UINT32_SIZE) ∧
    (runBamSetters ⟨4, 50, 255, 255⟩
        [300, 10, 9, 137, 201, 0, 4294967295]).get_minimum_time_between_transport_protocol_bam_frames
      = 137 :=
  ⟨by decide,
    (C11_last_valid_write_wins ⟨4, 50, 255, 255⟩ [300, 10, 9, 137, 201, 0, 4294967295]
      (by decide)).2.1 [300, 10, 9] 137 [201, 0, 4294967295] rfl (by decide) (by decide)
      (by decide)⟩

/-- C12: setters of different fields commute.  For every state, any two setter
calls that assign to two different data members, and any arguments (in range
or not), making the first call and then the second gives the same state as
making the second and then the first. -/
theorem C12_setters_of_different_fields_commute (s : CANNetworkConfiguration)
    (c d : SetterCall) (h : c.field ≠ d.field) :
    SetterCall.apply (SetterCall.apply s c) d = SetterCall.apply (SetterCall.apply s d) c :=
  setter_calls_commute s c d h

theorem C12_setters_of_different_fields_commute_witness :
    SetterCall.field (.bamFrames 120) ≠ SetterCall.field (.etpFrames 16) ∧
    SetterCall.apply (SetterCall.apply ⟨4, 50, 255, 255⟩ (.bamFrames 120)) (.etpFrames 16)
      = SetterCall.apply (SetterCall.apply ⟨4, 50, 255, 255⟩ (.etpFrames 16)) (.bamFrames 120) :=
  ⟨by decide,
    C12_setters_of_different_fields_commute ⟨4, 50, 255, 255⟩ (.bamFrames 120) (.etpFrames 16)
      (by decide)⟩

end CANNetworkConfiguration

end isobus
